import Mathlib

/-!
Verification of the parametric 3D flower mesh generator and parameter
state machine of src/sketch.js (class Flower, Utils, AppConfig).

The numeric semantics of the JavaScript source is idealised over the
real numbers: every arithmetic helper of p5.js used by the source
(map, constrain, lerp, radians, exp, sin, cos, pow, floor, min) is
embedded as the corresponding exact real operation.  Parameter storage
is embedded with an explicit JavaScript-number type distinguishing
finite values, NaN and the two infinities, because the source's
regeneration guard and strict-inequality update test are sensitive to
NaN.  Geometry is only ever evaluated by the theorems below at finite
parameter values; the guard logic itself is modelled exactly.
-/

/-- p5.js constrain(n, low, high) = max(min(n, high), low). -/
noncomputable def constrain (n low high : ℝ) : ℝ := max (min n high) low

/-- p5.js lerp(start, stop, amt) = start + (stop - start) * amt. -/
noncomputable def lerp (start stop amt : ℝ) : ℝ := start + (stop - start) * amt

/-- p5.js radians(deg) = deg * PI / 180. -/
noncomputable def radians (deg : ℝ) : ℝ := deg * Real.pi / 180

/-- p5.js map(n, s1, e1, s2, e2) without the bounds flag: plain affine map. -/
noncomputable def p5map (n s1 e1 s2 e2 : ℝ) : ℝ := (n - s1) / (e1 - s1) * (e2 - s2) + s2

/-- p5.js map(n, s1, e1, s2, e2, true): the affine map constrained into the
target interval, oriented by the order of s2 and e2. -/
noncomputable def p5mapClamped (n s1 e1 s2 e2 : ℝ) : ℝ :=
  if s2 < e2 then constrain (p5map n s1 e1 s2 e2) s2 e2
  else constrain (p5map n s1 e1 s2 e2) e2 s2

/-- JavaScript truncation toward zero, as used by the % operator. -/
noncomputable def jstrunc (x : ℝ) : ℝ := if 0 ≤ x then ((⌊x⌋ : ℤ) : ℝ) else ((⌈x⌉ : ℤ) : ℝ)

/-- JavaScript remainder a % b = a - b * trunc(a / b) (sign of the dividend). -/
noncomputable def jsmod (a b : ℝ) : ℝ := a - b * jstrunc (a / b)

/-- Utils.easeInOutCubic: t < 0.5 ? 4*t*t*t : 1 - pow(-2*t + 2, 3) / 2. -/
noncomputable def easeInOutCubic (t : ℝ) : ℝ :=
  if t < 0.5 then 4 * t * t * t else 1 - (-2 * t + 2) ^ (3 : ℕ) / 2

/-- AppConfig.THETA_DELTA_FACTOR. -/
def THETA_DELTA_FACTOR : ℝ := 15

/-- AppConfig.RADIUS_DELTA_FACTOR. -/
def RADIUS_DELTA_FACTOR : ℝ := 1

/-- AppConfig.AUTO_ANIMATION.LERP_FACTOR. -/
def LERP_FACTOR : ℝ := 0.02

/-- AppConfig.AUTO_ANIMATION.PERLIN_OFFSET_MULTIPLIER. -/
def PERLIN_OFFSET_MULTIPLIER : ℝ := 20

/-- A 3D vertex {x, y, z} in model space. -/
@[ext] structure Vec3 where
  x : ℝ
  y : ℝ
  z : ℝ

/-- A color {r, g, b} with channels in the zero-to-one range. -/
@[ext] structure RGB where
  r : ℝ
  g : ℝ
  b : ℝ

/-- A face triangle {v1, v2, v3, color} as pushed by regenerateGeometry. -/
@[ext] structure Face where
  v1 : Vec3
  v2 : Vec3
  v3 : Vec3
  color : RGB

/-- The immutable grid configuration of the flower: cols, rows, flowerSize
(alphaValue and frameRate play no role in geometry or color). -/
structure GridConfig where
  cols : ℕ
  rows : ℕ
  flowerSize : ℝ

/-- Derived constant thetaDelta = 180 * THETA_DELTA_FACTOR / cols (degrees). -/
noncomputable def thetaDelta (cfg : GridConfig) : ℝ :=
  180 * THETA_DELTA_FACTOR / (cfg.cols : ℝ)

/-- Derived constant radiusDelta = RADIUS_DELTA_FACTOR / rows. -/
noncomputable def radiusDelta (cfg : GridConfig) : ℝ :=
  RADIUS_DELTA_FACTOR / (cfg.rows : ℝ)

/-- The six shape parameters as finite real values, the domain on which the
geometry of the source is evaluated. -/
structure RealParams where
  opening : ℝ
  density : ℝ
  align : ℝ
  curve1 : ℝ
  curve2 : ℝ
  rotationSpeed : ℝ

/-- Flower._calculatePhi: (180 / opening) * exp(-thetaIdx * thetaDelta / (density * 180)). -/
noncomputable def calculatePhi (cfg : GridConfig) (p : RealParams) (thetaIdx : ℕ) : ℝ :=
  (180 / p.opening) * Real.exp (-(thetaIdx : ℝ) * thetaDelta cfg / (p.density * 180))

/-- Flower._calculatePetalShape: with petalProgress = (align * thetaIdx * thetaDelta % 360) / 180,
returns 1 - 0.5 * pow(1.25 * pow(1 - petalProgress, 2) - 0.25, 2). -/
noncomputable def calculatePetalShape (cfg : GridConfig) (p : RealParams) (thetaIdx : ℕ) : ℝ :=
  let petalProgress := jsmod (p.align * (thetaIdx : ℝ) * thetaDelta cfg) 360 / 180
  1 - 0.5 * (1.25 * (1 - petalProgress) ^ (2 : ℕ) - 0.25) ^ (2 : ℕ)

/-- Flower._calculateCurvature: curve1 * pow(normalizedRadius, 2) *
pow(curve2 * normalizedRadius - 1, 2) * sin(radians(phi)). -/
noncomputable def calculateCurvature (p : RealParams) (normalizedRadius phi : ℝ) : ℝ :=
  p.curve1 * normalizedRadius ^ (2 : ℕ) * (p.curve2 * normalizedRadius - 1) ^ (2 : ℕ) *
    Real.sin (radians phi)

/-- Flower._calculate3DPosition: spherical-like coordinates modified by the
petal-cut and curvature factors; thetaRad uses the precalculated
radians(thetaDelta). -/
noncomputable def calculate3DPosition (cfg : GridConfig) (normalizedRadius phi hangDown : ℝ)
    (thetaIdx : ℕ) (petalCut : ℝ) : Vec3 :=
  let phiRad := radians phi
  let thetaRad := (thetaIdx : ℝ) * radians (thetaDelta cfg)
  let sinPhi := Real.sin phiRad
  let cosPhi := Real.cos phiRad
  let sinTheta := Real.sin thetaRad
  let cosTheta := Real.cos thetaRad
  let radialFactor := normalizedRadius * sinPhi + hangDown * cosPhi
  { x := cfg.flowerSize * petalCut * radialFactor * sinTheta
    y := -cfg.flowerSize * petalCut * (normalizedRadius * cosPhi - hangDown * sinPhi)
    z := cfg.flowerSize * petalCut * radialFactor * cosTheta }

/-- The vertex computed by the inner loop of regenerateGeometry at row r and
angular index thetaIdx. -/
noncomputable def vertexAt (cfg : GridConfig) (p : RealParams) (r thetaIdx : ℕ) : Vec3 :=
  let normalizedRadius := (r : ℝ) * radiusDelta cfg
  let phi := calculatePhi cfg p thetaIdx
  let petalCut := calculatePetalShape cfg p thetaIdx
  let hangDown := calculateCurvature p normalizedRadius phi
  calculate3DPosition cfg normalizedRadius phi hangDown thetaIdx petalCut

/-- The verticesGrid built by regenerateGeometry: rows+1 rows of cols+1 vertices. -/
noncomputable def buildVerticesGrid (cfg : GridConfig) (p : RealParams) : List (List Vec3) :=
  (List.range (cfg.rows + 1)).map fun r =>
    (List.range (cfg.cols + 1)).map fun thetaIdx => vertexAt cfg p r thetaIdx

/-- Flower._getBlendedColor after colorPosition = 0.6 * radiusFactor + 0.4 * depthFactor
has been formed: easing, the 0.999 clamp, palette index mapping and per-channel lerp. -/
noncomputable def blendFromPosition (palette : List RGB) (colorPosition : ℝ) : RGB :=
  let eased := easeInOutCubic (constrain colorPosition 0 1)
  let clamped := constrain eased 0 0.999
  let mappedPosition := clamped * ((palette.length : ℝ) - 1)
  let colorIndex : ℤ := ⌊mappedPosition⌋
  let nextColorIndex : ℤ := min (colorIndex + 1) ((palette.length : ℤ) - 1)
  let blendFactor := mappedPosition - (colorIndex : ℝ)
  let c1 := palette.getD colorIndex.toNat ⟨0, 0, 0⟩
  let c2 := palette.getD nextColorIndex.toNat ⟨0, 0, 0⟩
  { r := lerp c1.r c2.r blendFactor
    g := lerp c1.g c2.g blendFactor
    b := lerp c1.b c2.b blendFactor }

/-- Flower._getBlendedColor: depthFactor from the bounded map of the face z,
radiusFactor from the face normalizedRadius, then the blend pipeline. -/
noncomputable def getBlendedColor (cfg : GridConfig) (palette : List RGB)
    (normalizedRadius z : ℝ) : RGB :=
  let depthFactor := p5mapClamped z (-(cfg.flowerSize * 0.8)) (cfg.flowerSize * 0.8) 0 1
  blendFromPosition palette (0.6 * normalizedRadius + 0.4 * depthFactor)

/-- Triangle 1 of the grid cell (r, thetaIdx): vertices (v1, v2, v4) with
color from row radius r * radiusDelta and the average z of v1, v2, v4. -/
noncomputable def faceA (cfg : GridConfig) (p : RealParams) (palette : List RGB)
    (r thetaIdx : ℕ) : Face :=
  let v1 := vertexAt cfg p r thetaIdx
  let v2 := vertexAt cfg p r (thetaIdx + 1)
  let v4 := vertexAt cfg p (r + 1) thetaIdx
  { v1 := v1, v2 := v2, v3 := v4
    color := getBlendedColor cfg palette ((r : ℝ) * radiusDelta cfg)
      ((v1.z + v2.z + v4.z) / 3) }

/-- Triangle 2 of the grid cell (r, thetaIdx): vertices (v2, v3, v4) with
color from mid radius (r + 0.5) * radiusDelta and the average z of v2, v3, v4. -/
noncomputable def faceB (cfg : GridConfig) (p : RealParams) (palette : List RGB)
    (r thetaIdx : ℕ) : Face :=
  let v2 := vertexAt cfg p r (thetaIdx + 1)
  let v3 := vertexAt cfg p (r + 1) (thetaIdx + 1)
  let v4 := vertexAt cfg p (r + 1) thetaIdx
  { v1 := v2, v2 := v3, v3 := v4
    color := getBlendedColor cfg palette (((r : ℝ) + 0.5) * radiusDelta cfg)
      ((v2.z + v3.z + v4.z) / 3) }

/-- The face list built by regenerateGeometry: two triangles per grid cell,
in row-major loop order. -/
noncomputable def buildFaces (cfg : GridConfig) (p : RealParams) (palette : List RGB) :
    List Face :=
  (List.range cfg.rows).flatMap fun r =>
    (List.range cfg.cols).flatMap fun thetaIdx =>
      [faceA cfg p palette r thetaIdx, faceB cfg p palette r thetaIdx]

/-- A JavaScript number as stored in this.params: a finite real, NaN, or an
infinity.  Arithmetic on non-finite values is never needed by the claims;
only the NaN guard and strict (in)equality tests observe the distinction. -/
inductive JSNum where
  | num (x : ℝ)
  | nan
  | posInf
  | negInf

/-- Detects NaN, as isNaN(parseFloat(v)) does on a number value v. -/
def JSNum.isNaN : JSNum → Bool
  | .nan => true
  | _ => false

/-- Finiteness of a JavaScript number. -/
def JSNum.isFinite : JSNum → Bool
  | .num _ => true
  | _ => false

/-- The real value of a finite JavaScript number; non-finite values map to 0.
Geometry is only evaluated through this function under guards or hypotheses
that exclude non-finite inputs, so the junk value is never load-bearing. -/
def JSNum.toReal : JSNum → ℝ
  | .num x => x
  | _ => 0

/-- JavaScript strict equality === on numbers: NaN is unequal to everything,
including itself. -/
def jsEq : JSNum → JSNum → Prop
  | .num a, .num b => a = b
  | .posInf, .posInf => True
  | .negInf, .negInf => True
  | _, _ => False

/-- The mutable this.params record of the Flower instance. -/
structure Params where
  opening : JSNum
  density : JSNum
  align : JSNum
  curve1 : JSNum
  curve2 : JSNum
  rotationSpeed : JSNum

/-- The real-valued view of a parameter record (exact on finite values). -/
def Params.toReal (p : Params) : RealParams :=
  { opening := p.opening.toReal
    density := p.density.toReal
    align := p.align.toReal
    curve1 := p.curve1.toReal
    curve2 := p.curve2.toReal
    rotationSpeed := p.rotationSpeed.toReal }

/-- All six parameters are finite numbers. -/
def ParamsFinite (p : Params) : Prop :=
  p.opening.isFinite = true ∧ p.density.isFinite = true ∧ p.align.isFinite = true ∧
    p.curve1.isFinite = true ∧ p.curve2.isFinite = true ∧ p.rotationSpeed.isFinite = true

/-- A stored parameter is a finite number lying in the inclusive range. -/
def InRange (v : JSNum) (lo hi : ℝ) : Prop :=
  ∃ x : ℝ, v = JSNum.num x ∧ lo ≤ x ∧ x ≤ hi

/-- The regeneration guard Object.values(this.params).some(v => isNaN(parseFloat(v))):
true exactly when some stored parameter is NaN (infinities pass the guard,
since isNaN(parseFloat(Infinity)) is false). -/
def paramsHasNaN (p : Params) : Bool :=
  p.opening.isNaN || p.density.isNaN || p.align.isNaN ||
    p.curve1.isNaN || p.curve2.isNaN || p.rotationSpeed.isNaN

/-- The mutable state of a Flower instance relevant to the claims. -/
structure FlowerState where
  params : Params
  faces : List Face
  rotationAngle : ℝ

/-- The outcome of Flower.regenerateGeometry: the new state together with
whether the NaN guard fired (console.warn was emitted and the body skipped).
The function is total, so no exception can propagate. -/
structure RegenResult where
  state : FlowerState
  warned : Bool

/-- Flower.regenerateGeometry with its guard made observable: if any parameter
is NaN the previous faces are retained and a warning is flagged; otherwise the
face list is rebuilt wholesale from the current parameters. -/
noncomputable def regenerateGeometryChecked (cfg : GridConfig) (palette : List RGB)
    (s : FlowerState) : RegenResult :=
  if paramsHasNaN s.params then ⟨s, true⟩
  else ⟨{ s with faces := buildFaces cfg s.params.toReal palette }, false⟩

/-- Flower.regenerateGeometry, state part. -/
noncomputable def regenerateGeometry (cfg : GridConfig) (palette : List RGB)
    (s : FlowerState) : FlowerState :=
  (regenerateGeometryChecked cfg palette s).state

/-- A partial parameter record as passed to updateParams: absent keys are none. -/
structure PartialParams where
  opening : Option JSNum := none
  density : Option JSNum := none
  align : Option JSNum := none
  curve1 : Option JSNum := none
  curve2 : Option JSNum := none
  rotationSpeed : Option JSNum := none

/-- One key of the updateParams loop: the stored value changes when the key is
supplied and fails the strict equality test against the current value. -/
def changedField (cur : JSNum) : Option JSNum → Prop
  | none => False
  | some x => ¬ jsEq cur x

/-- One key of the updateParams loop left unchanged: the key is absent or its
supplied value passes the strict equality test against the current value. -/
def unchangedField (cur : JSNum) : Option JSNum → Prop
  | none => True
  | some x => jsEq cur x

/-- The needsRegeneration flag of updateParams: some key other than
rotationSpeed was supplied with a strictly different value. -/
def updateNeedsRegen (p : Params) (u : PartialParams) : Prop :=
  changedField p.opening u.opening ∨ changedField p.density u.density ∨
    changedField p.align u.align ∨ changedField p.curve1 u.curve1 ∨
    changedField p.curve2 u.curve2

/-- The parameter record after the updateParams loop.  The source assigns a
key only when the strict equality test fails, but when the test succeeds the
supplied value is strictly equal to the stored one, so the merged record is
the same either way. -/
def applyPartial (p : Params) (u : PartialParams) : Params :=
  { opening := u.opening.getD p.opening
    density := u.density.getD p.density
    align := u.align.getD p.align
    curve1 := u.curve1.getD p.curve1
    curve2 := u.curve2.getD p.curve2
    rotationSpeed := u.rotationSpeed.getD p.rotationSpeed }

open Classical in
/-- Flower.updateParams: merge the supplied keys, then regenerate geometry
exactly when a non-rotationSpeed key changed. -/
noncomputable def updateParams (cfg : GridConfig) (palette : List RGB)
    (u : PartialParams) (s : FlowerState) : FlowerState :=
  let merged : FlowerState := { s with params := applyPartial s.params u }
  if updateNeedsRegen s.params u then regenerateGeometry cfg palette merged else merged

open Classical in
/-- Flower.display, rotation bookkeeping only: when rotationSpeed is strictly
different from 0 the rotation angle advances by rotationSpeed * 0.02; the
face rendering itself mutates no state. -/
noncomputable def display (s : FlowerState) : FlowerState :=
  if jsEq s.params.rotationSpeed (.num 0) then s
  else { s with rotationAngle := s.rotationAngle + s.params.rotationSpeed.toReal * 0.02 }

/-- One parameter of Flower.autoAnimateParams: noise sampled at the offset
time, mapped (unclamped) onto the slider range, lerped from the current value
with LERP_FACTOR, then constrained into the slider range. -/
noncomputable def animateOne (noise : ℝ → ℝ) (time : ℝ) (index : ℕ)
    (minVal maxVal cur : ℝ) : ℝ :=
  constrain
    (lerp cur (p5map (noise (time + (index : ℝ) * PERLIN_OFFSET_MULTIPLIER)) 0 1 minVal maxVal)
      LERP_FACTOR)
    minVal maxVal

open Classical in
/-- Flower.autoAnimateParams over the slider definitions of AppConfig, in
table order: opening [0.5,1.3], density [1,20], align [0,6], curve1 [-0.7,2.1],
curve2 [0,1.5], rotationSpeed [-0.5,0.5].  Regeneration is triggered when a
non-rotationSpeed parameter moved by more than 0.0001. -/
noncomputable def autoAnimateParams (cfg : GridConfig) (palette : List RGB)
    (noise : ℝ → ℝ) (time : ℝ) (s : FlowerState) : FlowerState :=
  let p := s.params
  let opening' := animateOne noise time 0 0.5 1.3 p.opening.toReal
  let density' := animateOne noise time 1 1 20 p.density.toReal
  let align' := animateOne noise time 2 0 6 p.align.toReal
  let curve1' := animateOne noise time 3 (-0.7) 2.1 p.curve1.toReal
  let curve2' := animateOne noise time 4 0 1.5 p.curve2.toReal
  let rotationSpeed' := animateOne noise time 5 (-0.5) 0.5 p.rotationSpeed.toReal
  let newParams : Params :=
    { opening := .num opening', density := .num density', align := .num align'
      curve1 := .num curve1', curve2 := .num curve2', rotationSpeed := .num rotationSpeed' }
  let needsRegeneration :=
    0.0001 < |p.opening.toReal - opening'| ∨ 0.0001 < |p.density.toReal - density'| ∨
      0.0001 < |p.align.toReal - align'| ∨ 0.0001 < |p.curve1.toReal - curve1'| ∨
      0.0001 < |p.curve2.toReal - curve2'|
  let merged : FlowerState := { s with params := newParams }
  if needsRegeneration then regenerateGeometry cfg palette merged else merged

/-- Spec formula for the per-vertex derivation, transcribed from the
specification text: phi in degrees, petal cut from the mod-360 progress,
hang-down droop, and the three coordinates with all trig arguments in
radians. -/
noncomputable def specVertex (cfg : GridConfig) (p : RealParams) (r t : ℕ) : Vec3 :=
  let phi := (180 / p.opening) * Real.exp (-(t : ℝ) * thetaDelta cfg / (p.density * 180))
  let progress := jsmod (p.align * (t : ℝ) * thetaDelta cfg) 360 / 180
  let petalCut := 1 - 0.5 * (1.25 * (1 - progress) ^ (2 : ℕ) - 0.25) ^ (2 : ℕ)
  let nr := (r : ℝ) * radiusDelta cfg
  let hangDown := p.curve1 * nr ^ (2 : ℕ) * (p.curve2 * nr - 1) ^ (2 : ℕ) *
    Real.sin (radians phi)
  let thetaRad := (t : ℝ) * radians (thetaDelta cfg)
  let radial := nr * Real.sin (radians phi) + hangDown * Real.cos (radians phi)
  { x := cfg.flowerSize * petalCut * radial * Real.sin thetaRad
    y := -cfg.flowerSize * petalCut *
      (nr * Real.cos (radians phi) - hangDown * Real.sin (radians phi))
    z := cfg.flowerSize * petalCut * radial * Real.cos thetaRad }

/-- Spec formula for the cubic ease-in-out, transcribed from the
specification text. -/
noncomputable def specEase (t : ℝ) : ℝ :=
  if t < 0.5 then 4 * t ^ (3 : ℕ) else 1 - (-2 * t + 2) ^ (3 : ℕ) / 2

/-- Spec formula for the depth factor: clamp(map(z, -0.8*flowerSize,
0.8*flowerSize, 0, 1), 0, 1). -/
noncomputable def specDepthFactor (cfg : GridConfig) (z : ℝ) : ℝ :=
  constrain (p5map z (-0.8 * cfg.flowerSize) (0.8 * cfg.flowerSize) 0 1) 0 1

/-- Spec formula for the color-blending pipeline from radiusFactor and
depthFactor: weighted position, clamp, ease, 0.999 clamp, palette index
pair, per-channel linear interpolation. -/
noncomputable def specBlendPipeline (palette : List RGB) (radiusFactor depthFactor : ℝ) : RGB :=
  let colorPosition := constrain (0.6 * radiusFactor + 0.4 * depthFactor) 0 1
  let eased := specEase colorPosition
  let cp := constrain eased 0 0.999
  let mapped := cp * ((palette.length : ℝ) - 1)
  let i0 : ℤ := ⌊mapped⌋
  let i1 : ℤ := min (i0 + 1) ((palette.length : ℤ) - 1)
  let blend := mapped - (i0 : ℝ)
  let c1 := palette.getD i0.toNat ⟨0, 0, 0⟩
  let c2 := palette.getD i1.toNat ⟨0, 0, 0⟩
  { r := c1.r + (c2.r - c1.r) * blend
    g := c1.g + (c2.g - c1.g) * blend
    b := c1.b + (c2.b - c1.b) * blend }

/-- Spec color of triangle A of cell (r, t): radius factor of row r, depth
factor from the average z of v1, v2, v4. -/
noncomputable def specColorA (cfg : GridConfig) (p : RealParams) (palette : List RGB)
    (r t : ℕ) : RGB :=
  specBlendPipeline palette ((r : ℝ) * radiusDelta cfg)
    (specDepthFactor cfg
      (((vertexAt cfg p r t).z + (vertexAt cfg p r (t + 1)).z + (vertexAt cfg p (r + 1) t).z) / 3))

/-- Spec color of triangle B of cell (r, t): radius factor (r + 0.5) *
radiusDelta, depth factor from the average z of v2, v3, v4. -/
noncomputable def specColorB (cfg : GridConfig) (p : RealParams) (palette : List RGB)
    (r t : ℕ) : RGB :=
  specBlendPipeline palette (((r : ℝ) + 0.5) * radiusDelta cfg)
    (specDepthFactor cfg
      (((vertexAt cfg p r (t + 1)).z + (vertexAt cfg p (r + 1) (t + 1)).z +
        (vertexAt cfg p (r + 1) t).z) / 3))

/-- The one-cell grid configuration used to exhibit phi aliasing. -/
def aliasCfg : GridConfig := ⟨1, 1, 200⟩

/-- Parameter store with opening 1 and density 15 / log 2, chosen so that the
phi decay factor per angular step is exactly one half. -/
noncomputable def aliasOldParams : Params :=
  ⟨.num 1, .num (15 / Real.log 2), .num 3.2, .num (-0.7), .num 0.9, .num 0.01⟩

/-- The same store after updating opening to 1/5: phi grows by full turns of
720 and 360 degrees at the two angular indices, so every sine and cosine is
unchanged. -/
noncomputable def aliasNewParams : Params :=
  ⟨.num (1 / 5), .num (15 / Real.log 2), .num 3.2, .num (-0.7), .num 0.9, .num 0.01⟩

/-- Auxiliary: the length of a flatMap whose blocks all have length k. -/
theorem length_flatMap_const {α β : Type} (l : List α) (f : α → List β) (k : ℕ)
    (h : ∀ a, (f a).length = k) : (l.flatMap f).length = l.length * k := by
  induction l with
  | nil => simp
  | cons a l ih => simp [List.flatMap_cons, ih, h a, Nat.succ_mul, Nat.add_comm]

/-- The code easing agrees with the spec easing formula. -/
theorem easeInOutCubic_eq_specEase (t : ℝ) : easeInOutCubic t = specEase t := by
  unfold easeInOutCubic specEase
  split <;> ring

/-- The bounded p5 map used for the depth factor agrees with the spec
clamp-of-map formula. -/
theorem depthFactor_eq_spec (cfg : GridConfig) (z : ℝ) :
    p5mapClamped z (-(cfg.flowerSize * 0.8)) (cfg.flowerSize * 0.8) 0 1 =
      specDepthFactor cfg z := by
  unfold p5mapClamped specDepthFactor
  rw [if_pos (by norm_num : (0 : ℝ) < 1)]
  unfold constrain p5map
  ring_nf

/-- The code blend applied to the combined color position agrees with the
spec pipeline on its two factors. -/
theorem blendFromPosition_eq_specPipeline (palette : List RGB) (rf df : ℝ) :
    blendFromPosition palette (0.6 * rf + 0.4 * df) = specBlendPipeline palette rf df := by
  unfold blendFromPosition specBlendPipeline lerp
  rw [easeInOutCubic_eq_specEase]

/-- The full code color of a face agrees with the spec pipeline. -/
theorem getBlendedColor_eq_spec (cfg : GridConfig) (palette : List RGB) (nr z : ℝ) :
    getBlendedColor cfg palette nr z = specBlendPipeline palette nr (specDepthFactor cfg z) := by
  unfold getBlendedColor
  rw [depthFactor_eq_spec, blendFromPosition_eq_specPipeline]

/-- The face list always has exactly 2 * rows * cols entries. -/
theorem buildFaces_length (cfg : GridConfig) (p : RealParams) (palette : List RGB) :
    (buildFaces cfg p palette).length = 2 * cfg.rows * cfg.cols := by
  unfold buildFaces
  rw [length_flatMap_const _ _ (cfg.cols * 2)]
  · rw [List.length_range]; ring
  · intro r
    rw [length_flatMap_const _ _ 2]
    · rw [List.length_range]
    · intro t; rfl

/-- C1.  For every finite shape-parameter assignment with opening and density
nonzero and every grid index r in [0, rows], t in [0, cols], the generated
vertex equals the spec formulas for phi, petalCut, hangDown and the three
coordinates, with all trigonometric arguments in radians. -/
theorem vertex_formulas_match_spec (cfg : GridConfig) (p : RealParams)
    (ho : p.opening ≠ 0) (hd : p.density ≠ 0) (r t : ℕ)
    (hr : r ≤ cfg.rows) (ht : t ≤ cfg.cols) :
    vertexAt cfg p r t = specVertex cfg p r t := rfl

/-- Witness for C1 at a concrete configuration and parameter assignment. -/
theorem vertex_formulas_match_spec_witness :
    (0.8 : ℝ) ≠ 0 ∧ (5.5 : ℝ) ≠ 0 ∧
      vertexAt ⟨80, 6, 200⟩ ⟨0.8, 5.5, 3.2, -0.7, 0.9, 0.01⟩ 3 7 =
        specVertex ⟨80, 6, 200⟩ ⟨0.8, 5.5, 3.2, -0.7, 0.9, 0.01⟩ 3 7 :=
  ⟨by norm_num, by norm_num,
    vertex_formulas_match_spec ⟨80, 6, 200⟩ ⟨0.8, 5.5, 3.2, -0.7, 0.9, 0.01⟩
      (by norm_num) (by norm_num) 3 7 (by norm_num) (by norm_num)⟩

/-- C3.  For rows, cols at least 1 and any parameters, regeneration produces
exactly 2 * rows * cols faces from a vertex grid of rows+1 rows of cols+1
vertices each, hence (rows+1)*(cols+1) vertices, and these counts do not
depend on the parameters, so they are identical across regenerations for the
lifetime of the config. -/
theorem face_and_vertex_counts_invariant (cfg : GridConfig) (p : RealParams)
    (palette : List RGB) (hr : 1 ≤ cfg.rows) (hc : 1 ≤ cfg.cols) :
    (buildFaces cfg p palette).length = 2 * cfg.rows * cfg.cols ∧
      (buildVerticesGrid cfg p).length = cfg.rows + 1 ∧
      (∀ row ∈ buildVerticesGrid cfg p, row.length = cfg.cols + 1) ∧
      ((buildVerticesGrid cfg p).map List.length).sum = (cfg.rows + 1) * (cfg.cols + 1) ∧
      ∀ q : RealParams, (buildFaces cfg q palette).length = (buildFaces cfg p palette).length := by
  refine ⟨buildFaces_length cfg p palette, by simp [buildVerticesGrid], ?_, ?_, ?_⟩
  · intro row hrow
    unfold buildVerticesGrid at hrow
    rw [List.mem_map] at hrow
    obtain ⟨r, _, hrow⟩ := hrow
    rw [← hrow, List.length_map, List.length_range]
  · have hrep : ((buildVerticesGrid cfg p).map List.length) =
        List.replicate (cfg.rows + 1) (cfg.cols + 1) := by
      unfold buildVerticesGrid
      rw [List.map_map]
      refine List.eq_replicate_iff.mpr ⟨by simp, ?_⟩
      intro b hb
      rw [List.mem_map] at hb
      obtain ⟨r, _, hb⟩ := hb
      simp [← hb]
    rw [hrep, List.sum_replicate, smul_eq_mul]
  · intro q
    rw [buildFaces_length, buildFaces_length]

/-- Witness for C3 at the configuration of AppConfig.FLOWER_CONFIG. -/
theorem face_and_vertex_counts_invariant_witness :
    (buildFaces ⟨80, 6, 200⟩ ⟨0.8, 5.5, 3.2, -0.7, 0.9, 0.01⟩ []).length = 2 * 6 * 80 ∧
      (buildVerticesGrid ⟨80, 6, 200⟩ ⟨0.8, 5.5, 3.2, -0.7, 0.9, 0.01⟩).length = 7 :=
  ⟨(face_and_vertex_counts_invariant ⟨80, 6, 200⟩ ⟨0.8, 5.5, 3.2, -0.7, 0.9, 0.01⟩ []
      (by norm_num) (by norm_num)).1,
    (face_and_vertex_counts_invariant ⟨80, 6, 200⟩ ⟨0.8, 5.5, 3.2, -0.7, 0.9, 0.01⟩ []
      (by norm_num) (by norm_num)).2.1⟩

/-- Regeneration never touches the parameter record. -/
theorem regenerateGeometry_params (cfg : GridConfig) (palette : List RGB) (s : FlowerState) :
    (regenerateGeometry cfg palette s).params = s.params := by
  unfold regenerateGeometry regenerateGeometryChecked
  split <;> rfl

/-- Regeneration never touches the rotation angle. -/
theorem regenerateGeometry_rotationAngle (cfg : GridConfig) (palette : List RGB)
    (s : FlowerState) : (regenerateGeometry cfg palette s).rotationAngle = s.rotationAngle := by
  unfold regenerateGeometry regenerateGeometryChecked
  split <;> rfl

/-- The parameter record produced by updateParams is the merged record. -/
theorem updateParams_params (cfg : GridConfig) (palette : List RGB) (u : PartialParams)
    (s : FlowerState) : (updateParams cfg palette u s).params = applyPartial s.params u := by
  unfold updateParams
  split
  · rw [regenerateGeometry_params]
  · rfl

/-- updateParams never touches the rotation angle. -/
theorem updateParams_rotationAngle (cfg : GridConfig) (palette : List RGB) (u : PartialParams)
    (s : FlowerState) : (updateParams cfg palette u s).rotationAngle = s.rotationAngle := by
  unfold updateParams
  split
  · rw [regenerateGeometry_rotationAngle]
  · rfl

/-- autoAnimateParams never touches the rotation angle. -/
theorem autoAnimateParams_rotationAngle (cfg : GridConfig) (palette : List RGB)
    (noise : ℝ → ℝ) (time : ℝ) (s : FlowerState) :
    (autoAnimateParams cfg palette noise time s).rotationAngle = s.rotationAngle := by
  unfold autoAnimateParams
  dsimp only
  split
  · rw [regenerateGeometry_rotationAngle]
  · rfl

/-- A field that passed the strict equality test did not change. -/
theorem not_changedField_of_unchanged {cur : JSNum} {o : Option JSNum}
    (h : unchangedField cur o) : ¬ changedField cur o := by
  cases o with
  | none => exact fun hc => hc
  | some x => exact fun hc => hc h

/-- C5.  If every supplied non-rotationSpeed value strictly equals the current
value of its key (which covers both a full no-op update and an update whose
only changing key is rotationSpeed), then updateParams performs no
regeneration and the face list is left entirely unchanged. -/
theorem noop_and_rotation_only_updates_skip_regeneration (cfg : GridConfig)
    (palette : List RGB) (u : PartialParams) (s : FlowerState)
    (h1 : unchangedField s.params.opening u.opening)
    (h2 : unchangedField s.params.density u.density)
    (h3 : unchangedField s.params.align u.align)
    (h4 : unchangedField s.params.curve1 u.curve1)
    (h5 : unchangedField s.params.curve2 u.curve2) :
    ¬ updateNeedsRegen s.params u ∧ (updateParams cfg palette u s).faces = s.faces := by
  have hno : ¬ updateNeedsRegen s.params u := by
    intro hreg
    rcases hreg with h | h | h | h | h
    · exact not_changedField_of_unchanged h1 h
    · exact not_changedField_of_unchanged h2 h
    · exact not_changedField_of_unchanged h3 h
    · exact not_changedField_of_unchanged h4 h
    · exact not_changedField_of_unchanged h5 h
  refine ⟨hno, ?_⟩
  unfold updateParams
  rw [if_neg hno]

/-- Witness for C5: an update that only changes rotationSpeed leaves the face
list untouched, and a same-value opening update triggers no regeneration. -/
theorem noop_and_rotation_only_updates_skip_regeneration_witness :
    (¬ updateNeedsRegen ⟨.num 0.8, .num 5.5, .num 3.2, .num (-0.7), .num 0.9, .num 0.01⟩
        { rotationSpeed := some (.num 0.3) } ∧
      (updateParams ⟨80, 6, 200⟩ []
        { rotationSpeed := some (.num 0.3) }
        ⟨⟨.num 0.8, .num 5.5, .num 3.2, .num (-0.7), .num 0.9, .num 0.01⟩, [], 0⟩).faces = []) ∧
    ¬ updateNeedsRegen ⟨.num 0.8, .num 5.5, .num 3.2, .num (-0.7), .num 0.9, .num 0.01⟩
        { opening := some (.num 0.8) } :=
  ⟨noop_and_rotation_only_updates_skip_regeneration ⟨80, 6, 200⟩ []
      { rotationSpeed := some (.num 0.3) }
      ⟨⟨.num 0.8, .num 5.5, .num 3.2, .num (-0.7), .num 0.9, .num 0.01⟩, [], 0⟩
      trivial trivial trivial trivial trivial,
    (noop_and_rotation_only_updates_skip_regeneration ⟨80, 6, 200⟩ []
      { opening := some (.num 0.8) }
      ⟨⟨.num 0.8, .num 5.5, .num 3.2, .num (-0.7), .num 0.9, .num 0.01⟩, [], 0⟩
      rfl trivial trivial trivial trivial).1⟩

/-- C6 (amended).  Whenever any shape parameter is NaN at the time
regeneration runs, the regeneration is skipped entirely: the previous face
list is retained unchanged, the warning branch is taken, and (the function
being total) no exception reaches the caller.  Parameters that are
non-finite but not NaN pass the guard, because the source test is
isNaN(parseFloat(v)). -/
theorem nan_param_skips_regeneration (cfg : GridConfig) (palette : List RGB)
    (s : FlowerState) (h : paramsHasNaN s.params = true) :
    regenerateGeometryChecked cfg palette s = ⟨s, true⟩ := by
  unfold regenerateGeometryChecked
  rw [if_pos h]

/-- Witness for C6 (amended) at a state whose density is NaN. -/
theorem nan_param_skips_regeneration_witness :
    regenerateGeometryChecked ⟨80, 6, 200⟩ []
        ⟨⟨.num 0.8, .nan, .num 3.2, .num (-0.7), .num 0.9, .num 0.01⟩, [], 0⟩ =
      ⟨⟨⟨.num 0.8, .nan, .num 3.2, .num (-0.7), .num 0.9, .num 0.01⟩, [], 0⟩, true⟩ :=
  nan_param_skips_regeneration ⟨80, 6, 200⟩ []
    ⟨⟨.num 0.8, .nan, .num 3.2, .num (-0.7), .num 0.9, .num 0.01⟩, [], 0⟩ rfl

/-- Counterexample to C6 as stated: an opening of positive infinity is not a
finite number, yet the guard does not fire — no warning is emitted and the
previous (empty) face list is replaced by a freshly built one. -/
theorem infinite_param_passes_regeneration_guard :
    JSNum.isFinite (JSNum.posInf) = false ∧
      (regenerateGeometryChecked ⟨1, 1, 200⟩ []
        ⟨⟨.posInf, .num 5.5, .num 3.2, .num (-0.7), .num 0.9, .num 0.01⟩, [], 0⟩).warned = false ∧
      (regenerateGeometry ⟨1, 1, 200⟩ []
        ⟨⟨.posInf, .num 5.5, .num 3.2, .num (-0.7), .num 0.9, .num 0.01⟩, [], 0⟩).faces ≠ [] := by
  refine ⟨rfl, rfl, ?_⟩
  intro hempty
  have hlen := congrArg List.length hempty
  rw [show (regenerateGeometry ⟨1, 1, 200⟩ []
      ⟨⟨.posInf, .num 5.5, .num 3.2, .num (-0.7), .num 0.9, .num 0.01⟩, [], 0⟩).faces =
      buildFaces ⟨1, 1, 200⟩
        (Params.toReal ⟨.posInf, .num 5.5, .num 3.2, .num (-0.7), .num 0.9, .num 0.01⟩) []
    from rfl, buildFaces_length] at hlen
  simp at hlen

/-- C10.  Setting a shape parameter to NaN through updateParams mutates the
parameter store even though the triggered regeneration aborts: afterwards the
params hold the NaN while the face list still reflects the previous finite
parameters, and since NaN is strictly unequal to itself, repeating the same
NaN update again counts as a change and triggers another regeneration
attempt. -/
theorem nan_update_desyncs_params_and_mesh (cfg : GridConfig) (palette : List RGB)
    (s : FlowerState) (hmesh : s.faces = buildFaces cfg s.params.toReal palette) :
    (updateParams cfg palette { opening := some .nan } s).params.opening = JSNum.nan ∧
      (updateParams cfg palette { opening := some .nan } s).faces =
        buildFaces cfg s.params.toReal palette ∧
      updateNeedsRegen (updateParams cfg palette { opening := some .nan } s).params
        { opening := some .nan } := by
  have hchanged : ∀ cur : JSNum, ¬ jsEq cur JSNum.nan := by
    intro cur
    cases cur <;> exact fun h => h
  have hneeds : updateNeedsRegen s.params { opening := some .nan } :=
    Or.inl (hchanged s.params.opening)
  have hparams : (updateParams cfg palette { opening := some .nan } s).params =
      applyPartial s.params { opening := some .nan } :=
    updateParams_params cfg palette { opening := some .nan } s
  refine ⟨by rw [hparams]; rfl, ?_, ?_⟩
  · unfold updateParams
    rw [if_pos hneeds]
    have hguard : paramsHasNaN (applyPartial s.params { opening := some .nan }) = true := rfl
    unfold regenerateGeometry
    rw [nan_param_skips_regeneration cfg palette _ hguard]
    exact hmesh
  · rw [hparams]
    exact Or.inl (hchanged _)

/-- Witness for C10 at a concrete state whose mesh matches its parameters. -/
theorem nan_update_desyncs_params_and_mesh_witness :
    (updateParams ⟨2, 1, 200⟩ [] { opening := some .nan }
        ⟨⟨.num 0.8, .num 5.5, .num 3.2, .num (-0.7), .num 0.9, .num 0.01⟩,
          buildFaces ⟨2, 1, 200⟩
            (Params.toReal ⟨.num 0.8, .num 5.5, .num 3.2, .num (-0.7), .num 0.9, .num 0.01⟩) [],
          0⟩).params.opening = JSNum.nan ∧
      (updateParams ⟨2, 1, 200⟩ [] { opening := some .nan }
        ⟨⟨.num 0.8, .num 5.5, .num 3.2, .num (-0.7), .num 0.9, .num 0.01⟩,
          buildFaces ⟨2, 1, 200⟩
            (Params.toReal ⟨.num 0.8, .num 5.5, .num 3.2, .num (-0.7), .num 0.9, .num 0.01⟩) [],
          0⟩).faces =
        buildFaces ⟨2, 1, 200⟩
          (Params.toReal ⟨.num 0.8, .num 5.5, .num 3.2, .num (-0.7), .num 0.9, .num 0.01⟩) [] :=
  ⟨(nan_update_desyncs_params_and_mesh ⟨2, 1, 200⟩ []
      ⟨⟨.num 0.8, .num 5.5, .num 3.2, .num (-0.7), .num 0.9, .num 0.01⟩,
        buildFaces ⟨2, 1, 200⟩
          (Params.toReal ⟨.num 0.8, .num 5.5, .num 3.2, .num (-0.7), .num 0.9, .num 0.01⟩) [],
        0⟩ rfl).1,
    (nan_update_desyncs_params_and_mesh ⟨2, 1, 200⟩ []
      ⟨⟨.num 0.8, .num 5.5, .num 3.2, .num (-0.7), .num 0.9, .num 0.01⟩,
        buildFaces ⟨2, 1, 200⟩
          (Params.toReal ⟨.num 0.8, .num 5.5, .num 3.2, .num (-0.7), .num 0.9, .num 0.01⟩) [],
        0⟩ rfl).2.1⟩

/-- Lower and upper bound of the p5 constrain when the interval is ordered. -/
theorem constrain_mem (n lo hi : ℝ) (h : lo ≤ hi) :
    lo ≤ constrain n lo hi ∧ constrain n lo hi ≤ hi := by
  unfold constrain
  exact ⟨le_max_right _ _, max_le (min_le_right _ _) h⟩

/-- The animated value of one parameter always lands in its slider range. -/
theorem animateOne_mem (noise : ℝ → ℝ) (time : ℝ) (index : ℕ) (minVal maxVal cur : ℝ)
    (h : minVal ≤ maxVal) :
    minVal ≤ animateOne noise time index minVal maxVal cur ∧
      animateOne noise time index minVal maxVal cur ≤ maxVal :=
  constrain_mem _ _ _ h

/-- The parameter record produced by autoAnimateParams. -/
theorem autoAnimateParams_params (cfg : GridConfig) (palette : List RGB)
    (noise : ℝ → ℝ) (time : ℝ) (s : FlowerState) :
    (autoAnimateParams cfg palette noise time s).params =
      { opening := .num (animateOne noise time 0 0.5 1.3 s.params.opening.toReal)
        density := .num (animateOne noise time 1 1 20 s.params.density.toReal)
        align := .num (animateOne noise time 2 0 6 s.params.align.toReal)
        curve1 := .num (animateOne noise time 3 (-0.7) 2.1 s.params.curve1.toReal)
        curve2 := .num (animateOne noise time 4 0 1.5 s.params.curve2.toReal)
        rotationSpeed := .num (animateOne noise time 5 (-0.5) 0.5 s.params.rotationSpeed.toReal) } := by
  unfold autoAnimateParams
  dsimp only
  split
  · rw [regenerateGeometry_params]
  · rfl

/-- C4.  Assuming the noise function returns values in [0, 1] (extremes
included), one call of autoAnimateParams leaves each of the six parameters
inside its inclusive slider range, regardless of the (finite) values the
parameters held before the call. -/
theorem autoAnimate_clamps_params_to_slider_ranges (cfg : GridConfig) (palette : List RGB)
    (noise : ℝ → ℝ) (time : ℝ) (s : FlowerState)
    (hnoise : ∀ x, 0 ≤ noise x ∧ noise x ≤ 1) (hfin : ParamsFinite s.params) :
    InRange (autoAnimateParams cfg palette noise time s).params.opening 0.5 1.3 ∧
      InRange (autoAnimateParams cfg palette noise time s).params.density 1 20 ∧
      InRange (autoAnimateParams cfg palette noise time s).params.align 0 6 ∧
      InRange (autoAnimateParams cfg palette noise time s).params.curve1 (-0.7) 2.1 ∧
      InRange (autoAnimateParams cfg palette noise time s).params.curve2 0 1.5 ∧
      InRange (autoAnimateParams cfg palette noise time s).params.rotationSpeed (-0.5) 0.5 := by
  have hp := autoAnimateParams_params cfg palette noise time s
  refine ⟨⟨_, by rw [hp], (animateOne_mem _ _ _ _ _ _ (by norm_num)).1,
      (animateOne_mem _ _ _ _ _ _ (by norm_num)).2⟩,
    ⟨_, by rw [hp], (animateOne_mem _ _ _ _ _ _ (by norm_num)).1,
      (animateOne_mem _ _ _ _ _ _ (by norm_num)).2⟩,
    ⟨_, by rw [hp], (animateOne_mem _ _ _ _ _ _ (by norm_num)).1,
      (animateOne_mem _ _ _ _ _ _ (by norm_num)).2⟩,
    ⟨_, by rw [hp], (animateOne_mem _ _ _ _ _ _ (by norm_num)).1,
      (animateOne_mem _ _ _ _ _ _ (by norm_num)).2⟩,
    ⟨_, by rw [hp], (animateOne_mem _ _ _ _ _ _ (by norm_num)).1,
      (animateOne_mem _ _ _ _ _ _ (by norm_num)).2⟩,
    ⟨_, by rw [hp], (animateOne_mem _ _ _ _ _ _ (by norm_num)).1,
      (animateOne_mem _ _ _ _ _ _ (by norm_num)).2⟩⟩

/-- Witness for C4 with the constant-zero noise function and a current state
whose density sits far outside its slider range. -/
theorem autoAnimate_clamps_params_to_slider_ranges_witness :
    InRange (autoAnimateParams ⟨80, 6, 200⟩ [] (fun _ => 0) 0
        ⟨⟨.num 0.8, .num 100, .num 3.2, .num (-0.7), .num 0.9, .num 0.01⟩, [], 0⟩).params.density
      1 20 :=
  (autoAnimate_clamps_params_to_slider_ranges ⟨80, 6, 200⟩ [] (fun _ => 0) 0
    ⟨⟨.num 0.8, .num 100, .num 3.2, .num (-0.7), .num 0.9, .num 0.01⟩, [], 0⟩
    (fun _ => ⟨le_refl 0, by norm_num⟩) ⟨rfl, rfl, rfl, rfl, rfl, rfl⟩).2.1

/-- C7 (amended).  The rotation angle is accumulated only by the render step:
updateParams, autoAnimateParams and regenerateGeometry never modify it, and a
display call never decreases it when rotationSpeed lies in [0, 0.5].  (For
negative rotationSpeed in the configured range the display step decreases the
angle, see the counterexample.) -/
theorem rotation_angle_modified_only_by_display (cfg : GridConfig) (palette : List RGB) :
    (∀ (u : PartialParams) (s : FlowerState),
        (updateParams cfg palette u s).rotationAngle = s.rotationAngle) ∧
      (∀ (noise : ℝ → ℝ) (time : ℝ) (s : FlowerState),
        (autoAnimateParams cfg palette noise time s).rotationAngle = s.rotationAngle) ∧
      (∀ s : FlowerState, (regenerateGeometry cfg palette s).rotationAngle = s.rotationAngle) ∧
      (∀ (s : FlowerState) (x : ℝ), s.params.rotationSpeed = JSNum.num x →
        0 ≤ x → x ≤ 0.5 → s.rotationAngle ≤ (display s).rotationAngle) := by
  refine ⟨updateParams_rotationAngle cfg palette, autoAnimateParams_rotationAngle cfg palette,
    regenerateGeometry_rotationAngle cfg palette, ?_⟩
  intro s x hx h0 _
  unfold display
  split
  · exact le_refl _
  · dsimp only
    rw [hx]
    have : (0 : ℝ) ≤ x * 0.02 := by positivity
    simp only [JSNum.toReal]
    linarith

/-- Witness for C7 (amended) at a concrete state with rotationSpeed 0.25. -/
theorem rotation_angle_modified_only_by_display_witness :
    (⟨⟨.num 0.8, .num 5.5, .num 3.2, .num (-0.7), .num 0.9, .num 0.25⟩, [], 7⟩ :
        FlowerState).rotationAngle ≤
      (display ⟨⟨.num 0.8, .num 5.5, .num 3.2, .num (-0.7), .num 0.9, .num 0.25⟩, [], 7⟩).rotationAngle ∧
    (updateParams ⟨80, 6, 200⟩ [] { opening := some (.num 1.0) }
        ⟨⟨.num 0.8, .num 5.5, .num 3.2, .num (-0.7), .num 0.9, .num 0.25⟩, [], 7⟩).rotationAngle = 7 :=
  ⟨(rotation_angle_modified_only_by_display ⟨80, 6, 200⟩ []).2.2.2
      ⟨⟨.num 0.8, .num 5.5, .num 3.2, .num (-0.7), .num 0.9, .num 0.25⟩, [], 7⟩ 0.25 rfl
      (by norm_num) (by norm_num),
    (rotation_angle_modified_only_by_display ⟨80, 6, 200⟩ []).1
      { opening := some (.num 1.0) }
      ⟨⟨.num 0.8, .num 5.5, .num 3.2, .num (-0.7), .num 0.9, .num 0.25⟩, [], 7⟩⟩

/-- Counterexample to C7 as stated: rotationSpeed -0.5 lies in the configured
slider range [-0.5, 0.5], yet a display call strictly decreases the rotation
angle. -/
theorem display_with_negative_speed_decreases_angle :
    (-(0.5 : ℝ)) ≤ 0.5 ∧ (-0.5 : ℝ) ≥ -0.5 ∧
      (display ⟨⟨.num 0.8, .num 5.5, .num 3.2, .num (-0.7), .num 0.9, .num (-0.5)⟩, [], 0⟩).rotationAngle <
        (⟨⟨.num 0.8, .num 5.5, .num 3.2, .num (-0.7), .num 0.9, .num (-0.5)⟩, [], 0⟩ :
          FlowerState).rotationAngle := by
  refine ⟨by norm_num, by norm_num, ?_⟩
  unfold display
  rw [if_neg (by simp [jsEq]; norm_num)]
  simp only [JSNum.toReal]
  norm_num

/-- The color stored on triangle A equals the spec pipeline for triangle A. -/
theorem faceA_color_eq_spec (cfg : GridConfig) (p : RealParams) (palette : List RGB)
    (r t : ℕ) : (faceA cfg p palette r t).color = specColorA cfg p palette r t := by
  unfold faceA specColorA
  dsimp only
  rw [getBlendedColor_eq_spec]

/-- The color stored on triangle B equals the spec pipeline for triangle B. -/
theorem faceB_color_eq_spec (cfg : GridConfig) (p : RealParams) (palette : List RGB)
    (r t : ℕ) : (faceB cfg p palette r t).color = specColorB cfg p palette r t := by
  unfold faceB specColorB
  dsimp only
  rw [getBlendedColor_eq_spec]

/-- C2.  Every face produced by regeneration is one of the two triangles of a
grid cell (r, t) with r < rows and t < cols, and its color equals the spec
blending pipeline for that triangle: triangle A uses the average z of
v1, v2, v4 and radius factor r * radiusDelta, triangle B uses the average z
of v2, v3, v4 and radius factor (r + 0.5) * radiusDelta. -/
theorem face_colors_match_spec_pipeline (cfg : GridConfig) (p : RealParams)
    (palette : List RGB) :
    ∀ f ∈ buildFaces cfg p palette, ∃ r t, r < cfg.rows ∧ t < cfg.cols ∧
      ((f = faceA cfg p palette r t ∧ f.color = specColorA cfg p palette r t) ∨
        (f = faceB cfg p palette r t ∧ f.color = specColorB cfg p palette r t)) := by
  intro f hf
  unfold buildFaces at hf
  rw [List.mem_flatMap] at hf
  obtain ⟨r, hr, hf⟩ := hf
  rw [List.mem_flatMap] at hf
  obtain ⟨t, ht, hf⟩ := hf
  refine ⟨r, t, List.mem_range.mp hr, List.mem_range.mp ht, ?_⟩
  simp only [List.mem_cons, List.not_mem_nil, or_false] at hf
  rcases hf with hf | hf
  · exact Or.inl ⟨hf, by rw [hf]; exact faceA_color_eq_spec cfg p palette r t⟩
  · exact Or.inr ⟨hf, by rw [hf]; exact faceB_color_eq_spec cfg p palette r t⟩

/-- Witness for C2 at a concrete one-cell grid and two-color palette. -/
theorem face_colors_match_spec_pipeline_witness :
    ∃ r t, r < 1 ∧ t < 1 ∧
      ((faceA ⟨1, 1, 200⟩ ⟨0.8, 5.5, 3.2, -0.7, 0.9, 0.01⟩ [⟨1, 0, 0⟩, ⟨0, 1, 0⟩] 0 0 =
          faceA ⟨1, 1, 200⟩ ⟨0.8, 5.5, 3.2, -0.7, 0.9, 0.01⟩ [⟨1, 0, 0⟩, ⟨0, 1, 0⟩] r t ∧
        (faceA ⟨1, 1, 200⟩ ⟨0.8, 5.5, 3.2, -0.7, 0.9, 0.01⟩ [⟨1, 0, 0⟩, ⟨0, 1, 0⟩] 0 0).color =
          specColorA ⟨1, 1, 200⟩ ⟨0.8, 5.5, 3.2, -0.7, 0.9, 0.01⟩ [⟨1, 0, 0⟩, ⟨0, 1, 0⟩] r t) ∨
        (faceA ⟨1, 1, 200⟩ ⟨0.8, 5.5, 3.2, -0.7, 0.9, 0.01⟩ [⟨1, 0, 0⟩, ⟨0, 1, 0⟩] 0 0 =
          faceB ⟨1, 1, 200⟩ ⟨0.8, 5.5, 3.2, -0.7, 0.9, 0.01⟩ [⟨1, 0, 0⟩, ⟨0, 1, 0⟩] r t ∧
        (faceA ⟨1, 1, 200⟩ ⟨0.8, 5.5, 3.2, -0.7, 0.9, 0.01⟩ [⟨1, 0, 0⟩, ⟨0, 1, 0⟩] 0 0).color =
          specColorB ⟨1, 1, 200⟩ ⟨0.8, 5.5, 3.2, -0.7, 0.9, 0.01⟩ [⟨1, 0, 0⟩, ⟨0, 1, 0⟩] r t)) :=
  face_colors_match_spec_pipeline ⟨1, 1, 200⟩ ⟨0.8, 5.5, 3.2, -0.7, 0.9, 0.01⟩
    [⟨1, 0, 0⟩, ⟨0, 1, 0⟩] _
    (by unfold buildFaces; simp [List.range_succ])

/-- C9.  With a palette of exactly two (distinct) colors, a face whose
colorPosition input to the blending stage is 0 gets exactly palette[0], while
colorPosition 1 is clamped to 0.999 before index mapping, so the result
approaches but never exactly equals palette[1]. -/
theorem two_color_palette_blend_endpoints (c0 c1 : RGB) :
    blendFromPosition [c0, c1] 0 = c0 ∧
      (c0 ≠ c1 → blendFromPosition [c0, c1] 1 ≠ c1) := by
  obtain ⟨r0, g0, b0⟩ := c0
  obtain ⟨r1, g1, b1⟩ := c1
  have hmin01 : min (0 : ℝ) 1 = 0 := by norm_num
  have hmax00 : max (0 : ℝ) 0 = 0 := by norm_num
  have hease0 : easeInOutCubic 0 = 0 := by
    unfold easeInOutCubic
    rw [if_pos (by norm_num : (0 : ℝ) < 0.5)]
    ring
  have hease1 : easeInOutCubic 1 = 1 := by
    unfold easeInOutCubic
    rw [if_neg (by norm_num : ¬ (1 : ℝ) < 0.5)]
    norm_num
  have hc0 : constrain 0 0 1 = 0 := by unfold constrain; norm_num
  have hc1 : constrain 1 0 1 = 1 := by unfold constrain; norm_num
  have hc0' : constrain 0 0 0.999 = 0 := by unfold constrain; norm_num
  have hc1' : constrain 1 0 0.999 = 0.999 := by unfold constrain; norm_num
  have hfloor0 : ⌊(0 : ℝ)⌋ = 0 := Int.floor_zero
  have hfloor999 : ⌊(0.999 : ℝ)⌋ = 0 := by
    rw [Int.floor_eq_zero_iff]
    constructor <;> norm_num
  constructor
  · unfold blendFromPosition
    dsimp only
    rw [hc0, hease0, hc0']
    norm_num [lerp, RGB.mk.injEq]
  · intro hne heq
    apply hne
    unfold blendFromPosition at heq
    dsimp only at heq
    rw [hc1, hease1, hc1'] at heq
    have hlen : (([⟨r0, g0, b0⟩, ⟨r1, g1, b1⟩] : List RGB).length : ℝ) - 1 = 1 := by norm_num
    rw [hlen, mul_one, hfloor999] at heq
    norm_num [lerp] at heq
    obtain ⟨e1, e2, e3⟩ := heq
    have : r0 = r1 := by linarith
    have : g0 = g1 := by linarith
    have : b0 = b1 := by linarith
    ext <;> assumption

/-- Witness for C9 at two concrete distinct colors. -/
theorem two_color_palette_blend_endpoints_witness :
    blendFromPosition [⟨1, 0, 0⟩, ⟨0, 1, 0⟩] 0 = ⟨1, 0, 0⟩ ∧
      blendFromPosition [⟨1, 0, 0⟩, ⟨0, 1, 0⟩] 1 ≠ ⟨0, 1, 0⟩ :=
  ⟨(two_color_palette_blend_endpoints ⟨1, 0, 0⟩ ⟨0, 1, 0⟩).1,
    (two_color_palette_blend_endpoints ⟨1, 0, 0⟩ ⟨0, 1, 0⟩).2
      (by simp [RGB.mk.injEq])⟩

/-- A finite parameter is not NaN. -/
theorem not_isNaN_of_isFinite {v : JSNum} (h : v.isFinite = true) : v.isNaN = false := by
  cases v <;> first | rfl | cases h

/-- Two parameter records that agree on align, curve1 and curve2 and whose phi
angles have equal sine and cosine at angular index t generate the same vertex
at every row r: the vertex depends on phi only through its sine and cosine. -/
theorem vertexAt_congr_phi (cfg : GridConfig) (p q : RealParams) (r t : ℕ)
    (halign : p.align = q.align) (hc1 : p.curve1 = q.curve1) (hc2 : p.curve2 = q.curve2)
    (hsin : Real.sin (radians (calculatePhi cfg p t)) = Real.sin (radians (calculatePhi cfg q t)))
    (hcos : Real.cos (radians (calculatePhi cfg p t)) = Real.cos (radians (calculatePhi cfg q t))) :
    vertexAt cfg p r t = vertexAt cfg q r t := by
  unfold vertexAt calculate3DPosition calculateCurvature calculatePetalShape
  dsimp only
  rw [halign, hc1, hc2, hsin, hcos]

/-- C8 (amended).  For any grid and any finite current parameter state,
updateParams with an opening strictly different from the current one always
triggers a regeneration: the stored opening becomes the new value and the face
list is rebuilt wholesale from the updated parameters.  (The rebuilt mesh may
nevertheless coincide with the previous one, see the counterexample, so the
original "at least one vertex position differs" does not hold.) -/
theorem opening_change_triggers_regeneration (cfg : GridConfig) (palette : List RGB)
    (s : FlowerState) (x o : ℝ) (hcur : s.params.opening = JSNum.num o) (hx : x ≠ o)
    (hfin : ParamsFinite s.params) :
    updateNeedsRegen s.params { opening := some (.num x) } ∧
      (updateParams cfg palette { opening := some (.num x) } s).params.opening = JSNum.num x ∧
      (updateParams cfg palette { opening := some (.num x) } s).faces =
        buildFaces cfg (applyPartial s.params { opening := some (.num x) }).toReal palette := by
  have hneeds : updateNeedsRegen s.params { opening := some (.num x) } := by
    left
    show ¬ jsEq s.params.opening (.num x)
    rw [hcur]
    exact fun h => hx (Eq.symm h)
  obtain ⟨_, h2, h3, h4, h5, h6⟩ := hfin
  have hguard : paramsHasNaN (applyPartial s.params { opening := some (.num x) }) = false := by
    unfold paramsHasNaN applyPartial
    dsimp only [Option.getD]
    rw [not_isNaN_of_isFinite h2, not_isNaN_of_isFinite h3, not_isNaN_of_isFinite h4,
      not_isNaN_of_isFinite h5, not_isNaN_of_isFinite h6]
    rfl
  refine ⟨hneeds, by rw [updateParams_params]; rfl, ?_⟩
  unfold updateParams
  dsimp only
  rw [if_pos hneeds]
  unfold regenerateGeometry regenerateGeometryChecked
  simp only [hguard, Bool.false_eq_true, if_false]

/-- Witness for C8 (amended) at a concrete state and opening value. -/
theorem opening_change_triggers_regeneration_witness :
    updateNeedsRegen ⟨.num 0.8, .num 5.5, .num 3.2, .num (-0.7), .num 0.9, .num 0.01⟩
        { opening := some (.num 1.0) } ∧
      (updateParams ⟨80, 6, 200⟩ [] { opening := some (.num 1.0) }
        ⟨⟨.num 0.8, .num 5.5, .num 3.2, .num (-0.7), .num 0.9, .num 0.01⟩, [], 0⟩).params.opening =
        JSNum.num 1.0 ∧
      (updateParams ⟨80, 6, 200⟩ [] { opening := some (.num 1.0) }
        ⟨⟨.num 0.8, .num 5.5, .num 3.2, .num (-0.7), .num 0.9, .num 0.01⟩, [], 0⟩).faces =
        buildFaces ⟨80, 6, 200⟩
          (applyPartial ⟨.num 0.8, .num 5.5, .num 3.2, .num (-0.7), .num 0.9, .num 0.01⟩
            { opening := some (.num 1.0) }).toReal [] :=
  opening_change_triggers_regeneration ⟨80, 6, 200⟩ []
    ⟨⟨.num 0.8, .num 5.5, .num 3.2, .num (-0.7), .num 0.9, .num 0.01⟩, [], 0⟩ 1.0 0.8
    rfl (by norm_num) ⟨rfl, rfl, rfl, rfl, rfl, rfl⟩

/-- Counterexample to C8 as stated: on the one-cell grid aliasCfg with
density 15 / log 2, updating opening from 1 to 1/5 strictly changes the
parameter and triggers a regeneration, but phi moves by exactly 720 and 360
degrees at the two angular indices, so every vertex position (and hence the
whole face list) is unchanged: no vertex position differs from the previous
mesh. -/
theorem opening_change_can_preserve_every_vertex :
    ((1 : ℝ) / 5 ≠ 1 ∧ aliasOldParams.opening = JSNum.num 1 ∧
        aliasNewParams = applyPartial aliasOldParams { opening := some (.num (1 / 5)) }) ∧
      updateNeedsRegen aliasOldParams { opening := some (.num (1 / 5)) } ∧
      buildVerticesGrid aliasCfg aliasNewParams.toReal =
        buildVerticesGrid aliasCfg aliasOldParams.toReal ∧
      (updateParams aliasCfg [] { opening := some (.num (1 / 5)) }
          ⟨aliasOldParams, buildFaces aliasCfg aliasOldParams.toReal [], 0⟩).faces =
        buildFaces aliasCfg aliasOldParams.toReal [] := by
  have hL : Real.log 2 ≠ 0 := ne_of_gt (Real.log_pos (by norm_num))
  have hθ : thetaDelta aliasCfg = 2700 := by
    unfold thetaDelta THETA_DELTA_FACTOR aliasCfg
    norm_num
  have hOld : aliasOldParams.toReal =
      (⟨1, 15 / Real.log 2, 3.2, -0.7, 0.9, 0.01⟩ : RealParams) := rfl
  have hNew : aliasNewParams.toReal =
      (⟨1 / 5, 15 / Real.log 2, 3.2, -0.7, 0.9, 0.01⟩ : RealParams) := rfl
  have harg : -((1 : ℕ) : ℝ) * 2700 / (15 / Real.log 2 * 180) = -Real.log 2 := by
    push_cast
    field_simp
    ring
  have hexp : Real.exp (-((1 : ℕ) : ℝ) * 2700 / (15 / Real.log 2 * 180)) = 1 / 2 := by
    rw [harg, Real.exp_neg, Real.exp_log (by norm_num : (0 : ℝ) < 2)]
    norm_num
  have hphiO0 : calculatePhi aliasCfg aliasOldParams.toReal 0 = 180 := by
    rw [hOld]
    unfold calculatePhi
    rw [hθ]
    norm_num
  have hphiN0 : calculatePhi aliasCfg aliasNewParams.toReal 0 = 900 := by
    rw [hNew]
    unfold calculatePhi
    rw [hθ]
    norm_num
  have hphiO1 : calculatePhi aliasCfg aliasOldParams.toReal 1 = 90 := by
    rw [hOld]
    unfold calculatePhi
    rw [hθ]
    dsimp only
    rw [hexp]
    norm_num
  have hphiN1 : calculatePhi aliasCfg aliasNewParams.toReal 1 = 450 := by
    rw [hNew]
    unfold calculatePhi
    rw [hθ]
    dsimp only
    rw [hexp]
    norm_num
  have hrad0 : radians 900 = radians 180 + 2 * Real.pi + 2 * Real.pi := by
    unfold radians
    ring
  have hrad1 : radians 450 = radians 90 + 2 * Real.pi := by
    unfold radians
    ring
  have hsin0 : Real.sin (radians (calculatePhi aliasCfg aliasNewParams.toReal 0)) =
      Real.sin (radians (calculatePhi aliasCfg aliasOldParams.toReal 0)) := by
    rw [hphiN0, hphiO0, hrad0, Real.sin_add_two_pi, Real.sin_add_two_pi]
  have hcos0 : Real.cos (radians (calculatePhi aliasCfg aliasNewParams.toReal 0)) =
      Real.cos (radians (calculatePhi aliasCfg aliasOldParams.toReal 0)) := by
    rw [hphiN0, hphiO0, hrad0, Real.cos_add_two_pi, Real.cos_add_two_pi]
  have hsin1 : Real.sin (radians (calculatePhi aliasCfg aliasNewParams.toReal 1)) =
      Real.sin (radians (calculatePhi aliasCfg aliasOldParams.toReal 1)) := by
    rw [hphiN1, hphiO1, hrad1, Real.sin_add_two_pi]
  have hcos1 : Real.cos (radians (calculatePhi aliasCfg aliasNewParams.toReal 1)) =
      Real.cos (radians (calculatePhi aliasCfg aliasOldParams.toReal 1)) := by
    rw [hphiN1, hphiO1, hrad1, Real.cos_add_two_pi]
  have hv : ∀ r t : ℕ, t ≤ 1 →
      vertexAt aliasCfg aliasNewParams.toReal r t = vertexAt aliasCfg aliasOldParams.toReal r t := by
    intro r t ht
    interval_cases t
    · exact vertexAt_congr_phi aliasCfg _ _ r 0 rfl rfl rfl hsin0 hcos0
    · exact vertexAt_congr_phi aliasCfg _ _ r 1 rfl rfl rfl hsin1 hcos1
  have hneeds : updateNeedsRegen aliasOldParams { opening := some (.num (1 / 5)) } := by
    left
    show ¬ jsEq aliasOldParams.opening (.num (1 / 5))
    exact fun h => (by norm_num : (1 : ℝ) ≠ 1 / 5) h
  have hfaces : buildFaces aliasCfg aliasNewParams.toReal [] =
      buildFaces aliasCfg aliasOldParams.toReal [] := by
    unfold buildFaces
    rw [show List.range aliasCfg.rows = [0] from rfl, show List.range aliasCfg.cols = [0] from rfl]
    simp only [List.flatMap_cons, List.flatMap_nil, List.append_nil]
    unfold faceA faceB
    dsimp only
    rw [hv 0 0 (by norm_num), hv 0 1 (by norm_num), hv 1 0 (by norm_num), hv 1 1 (by norm_num)]
  have hgrid : buildVerticesGrid aliasCfg aliasNewParams.toReal =
      buildVerticesGrid aliasCfg aliasOldParams.toReal := by
    unfold buildVerticesGrid
    rw [show List.range (aliasCfg.rows + 1) = [0, 1] from rfl,
      show List.range (aliasCfg.cols + 1) = [0, 1] from rfl]
    simp only [List.map_cons, List.map_nil]
    rw [hv 0 0 (by norm_num), hv 0 1 (by norm_num), hv 1 0 (by norm_num), hv 1 1 (by norm_num)]
  refine ⟨⟨by norm_num, rfl, rfl⟩, hneeds, hgrid, ?_⟩
  unfold updateParams
  dsimp only
  rw [if_pos hneeds]
  unfold regenerateGeometry regenerateGeometryChecked
  rw [show paramsHasNaN (applyPartial aliasOldParams { opening := some (.num (1 / 5)) }) = false
    from rfl]
  simp only [Bool.false_eq_true, if_false]
  show buildFaces aliasCfg (applyPartial aliasOldParams { opening := some (.num (1 / 5)) }).toReal [] =
    buildFaces aliasCfg aliasOldParams.toReal []
  exact hfaces
